import Mathlib

/-!
Verification of the booking-api admission and date-handling logic.

The embedding models calendar dates as integer day numbers (days since
1970-01-01 in the proleptic Gregorian calendar).  All `Date` values the
service manipulates are date-only values (constructed from year / month /
day components or stored date columns), so a JavaScript `Date` is modelled
by its day number; an invalid `Date` (`NaN` time value) is modelled by a
separate constructor.  Conversions between day numbers and civil
`(year, month, day)` triples follow the standard Gregorian algorithms, and
month / day overflow in `new Date(y, m, d)` is normalised exactly as
ECMAScript `MakeDay` does (month rolls into the year, the day is an offset
from the first of the month).
-/

/-- Equality of fallible results is decidable when both component types
have decidable equality. -/
instance {ε α : Type} [DecidableEq ε] [DecidableEq α] : DecidableEq (Except ε α) :=
  fun x y =>
    match x, y with
    | Except.ok a, Except.ok b =>
      if h : a = b then isTrue (by rw [h])
      else isFalse (fun he => h (by cases he; rfl))
    | Except.ok _, Except.error _ => isFalse (fun he => by cases he)
    | Except.error _, Except.ok _ => isFalse (fun he => by cases he)
    | Except.error a, Except.error b =>
      if h : a = b then isTrue (by rw [h])
      else isFalse (fun he => h (by cases he; rfl))

namespace BookingApi

/-- Days from 1970-01-01 to the first day of month `m` (1..12) of year `y`,
proleptic Gregorian.  Uses floor division so the formula is uniform for
all integer years. -/
def daysFromCivilMonth (y m : Int) : Int :=
  let y' : Int := if m ≤ 2 then y - 1 else y
  let era : Int := Int.fdiv y' 400
  let yoe : Int := y' - era * 400
  let mp : Int := Int.fmod (m + 9) 12
  let doy : Int := Int.fdiv (153 * mp + 2) 5
  let doe : Int := yoe * 365 + Int.fdiv yoe 4 - Int.fdiv yoe 100 + doy
  era * 146097 + doe - 719468

/-- Day number of the civil date `(y, m, d)` with `m` in 1..12; `d` may
exceed the month length (pure day offset, as in ECMAScript `MakeDay`). -/
def daysFromCivil (y m d : Int) : Int :=
  daysFromCivilMonth y m + (d - 1)

/-- Civil `(year, month, day)` of a day number (inverse of
`daysFromCivil` on in-range components). -/
def civilFromDays (z0 : Int) : Int × Int × Int :=
  let z : Int := z0 + 719468
  let era : Int := Int.fdiv z 146097
  let doe : Int := z - era * 146097
  let yoe : Int := Int.fdiv (doe - Int.fdiv doe 1460 + Int.fdiv doe 36524 - Int.fdiv doe 146096) 365
  let y : Int := yoe + era * 400
  let doy : Int := doe - (365 * yoe + Int.fdiv yoe 4 - Int.fdiv yoe 100)
  let mp : Int := Int.fdiv (5 * doy + 2) 153
  let d : Int := doy - Int.fdiv (153 * mp + 2) 5 + 1
  let m : Int := mp + (if mp < 10 then 3 else -9)
  (if m ≤ 2 then y + 1 else y, m, d)

/-- ECMAScript two-digit-year rule of the `Date(year, month, day)`
constructor: a year in 0..99 is taken as 1900 + year. -/
def jsYearAdjust (y : Int) : Int :=
  if 0 ≤ y ∧ y ≤ 99 then y + 1900 else y

/-- Day number produced by `new Date(y, mIdx, d)` (date-only part):
`mIdx` is the zero-based month index and may overflow into the year,
`d` is a day offset from the first of the month (ECMAScript `MakeDay`).
The two-digit-year adjustment of the constructor is applied by the
caller via `jsYearAdjust`. -/
def jsMakeDay (y mIdx d : Int) : Int :=
  daysFromCivilMonth (y + Int.fdiv mIdx 12) (Int.fmod mIdx 12 + 1) + (d - 1)

/-- A JavaScript `Date` restricted to its calendar-day content: either a
valid date (its day number) or an invalid date (`NaN` time value). -/
inductive JsDate where
  | valid (day : Int)
  | invalid
deriving DecidableEq, Repr

/-- `<` on JavaScript `Date` values: any comparison against an invalid
date is false (`NaN` comparisons). -/
def jsLt : JsDate → JsDate → Bool
  | JsDate.valid a, JsDate.valid b => a < b
  | _, _ => false

/-- Two-digit zero-padded decimal rendering of a day or month component
(`toISOString` field rendering; the argument is in 1..31). -/
def pad2 (n : Int) : String :=
  if n < 10 then "0" ++ toString n else toString n

/-- `date.toISOString().slice(0, 10)`: the canonical `YYYY-MM-DD`
rendering of a day number (years of four digits). -/
def toCanonical (day : Int) : String :=
  let c := civilFromDays day
  toString c.1 ++ "-" ++ pad2 c.2.1 ++ "-" ++ pad2 c.2.2

/-- Value of a list of decimal digit characters. -/
def digitsToNat : List Char → Nat
  | [] => 0
  | c :: cs => List.foldl (fun acc d => acc * 10 + (d.toNat - 48)) (c.toNat - 48) cs

/-- JavaScript `parseInt` on the strings this code feeds it (no sign, no
leading whitespace): the value of the maximal leading run of decimal
digits, `NaN` (`none`) when the string starts with a non-digit.
`Number(s)` agrees with it on all-digit strings, the only strings the
validator applies it to (they already matched `\d{2}` / `\d{4}`). -/
def parseIntDigits (s : String) : Option Int :=
  let ds := s.toList.takeWhile Char.isDigit
  if ds.isEmpty then none else some (Int.ofNat (digitsToNat ds))

/-- `value.split(c)` on a character list: splits at every occurrence of
`c`, keeping empty pieces, as the JavaScript `String.prototype.split`
does. -/
def splitCharAux (c : Char) : List Char → List Char → List (List Char)
  | [], acc => [acc.reverse]
  | x :: xs, acc =>
    if x = c then acc.reverse :: splitCharAux c xs []
    else splitCharAux c xs (x :: acc)

/-- `value.split('-')` on a string. -/
def splitHyphen (s : String) : List String :=
  (splitCharAux '-' s.toList []).map (fun l => String.mk l)

/-- An ASCII whitespace character (the kinds `String.prototype.trim`
removes that can occur in these inputs). -/
def isWhitespaceChar (c : Char) : Bool :=
  c = ' ' || c = '\t' || c = '\n' || c = '\r'

/-- `value.trim()`: removes leading and trailing whitespace. -/
def jsTrim (s : String) : String :=
  String.mk (((s.toList.dropWhile isWhitespaceChar).reverse.dropWhile isWhitespaceChar).reverse)

/-- The day, month and year components read off a hyphen-separated date
string: `value.split('-')` destructured as `[day, month, year]` and fed
through `parseInt` / `Number`. -/
def splitComponentsDMY (s : String) : Option (Int × Int × Int) :=
  match (splitHyphen s).map parseIntDigits with
  | some d :: some m :: some y :: _ => some (d, m, y)
  | _ => none

/-- The regular expression `^\d{2}-\d{2}-\d{4}$` used by both the
`IsDDMMYYYYDate` validator and the DTO `@Matches` patterns. -/
def matchesDDMMYYYY (s : String) : Bool :=
  match s.toList with
  | [a, b, '-', c, d, '-', e, f, g, h] =>
    a.isDigit && b.isDigit && c.isDigit && d.isDigit &&
    e.isDigit && f.isDigit && g.isDigit && h.isDigit
  | _ => false

/-- `InputUtils.parseDate`: splits on `-`, reads `[day, month, year]`,
and builds `new Date(year, month - 1, day)`.  A missing or non-numeric
component yields an invalid date. -/
def parseDate (s : String) : JsDate :=
  match splitComponentsDMY s with
  | some (d, m, y) => JsDate.valid (jsMakeDay (jsYearAdjust y) (m - 1) d)
  | none => JsDate.invalid

/-- The `validate` method of the `IsDDMMYYYYDate` decorator: pattern
check, component split, `new Date(year, month - 1, day)`, then the
round-trip comparison of `getDate` / `getMonth` / `getFullYear` against
the input components. -/
def isDDMMYYYYDateValidate (s : String) : Bool :=
  if !matchesDDMMYYYY s then false
  else
    match splitComponentsDMY s with
    | some (d, m, y) =>
      let c := civilFromDays (jsMakeDay (jsYearAdjust y) (m - 1) d)
      c.2.2 == d && (c.2.1 - 1) == (m - 1) && c.1 == y
    | none => false

/-- `InputUtils.isFutureDate`: `new Date(date) > new Date()`, with the
current moment supplied as a day number. -/
def isFutureDate (now : Int) (d : Int) : Bool :=
  now < d

/-- `InputUtils.isValidDateRange`: `new Date(startDate) < new Date(endDate)`. -/
def isValidDateRange (s e : Int) : Bool :=
  s < e

end BookingApi

namespace BookingApi

/-- Booking status enumeration (`BookingStatus` in the schema); the
default at creation is `confirmed`. -/
inductive BookingStatus where
  | confirmed
  | cancelled
  | pending
deriving DecidableEq, Repr

/-- Property status enumeration (`PropertyStatus` in the schema). -/
inductive PropertyStatus where
  | active
  | inactive
  | archived
deriving DecidableEq, Repr

/-- A `Property` record restricted to the fields the booking logic
reads: id, availability window (day numbers) and status. -/
structure Property where
  id : String
  availableFrom : Int
  availableTo : Int
  status : PropertyStatus
deriving DecidableEq, Repr

/-- A `Booking` record: id, owning property, user, date range (day
numbers) and status. -/
structure Booking where
  id : String
  propertyId : String
  userName : String
  startDate : Int
  endDate : Int
  status : BookingStatus
deriving DecidableEq, Repr

/-- `prisma.property.findUnique({ where: { id } })`. -/
def findProperty (props : List Property) (id : String) : Option Property :=
  props.find? (fun p => p.id == id)

/-- `prisma.booking.findUnique({ where: { id } })`. -/
def findBooking (bookings : List Booking) (id : String) : Option Booking :=
  bookings.find? (fun b => b.id == id)

/-- The per-row condition of the creation-path overlap query:
`NOT: [{endDate: {lte: startDateObj}}, {startDate: {gte: endDateObj}}]`,
i.e. neither listed condition holds, on an existing row `[bs, be)`
against the requested `[s, e)`. -/
def overlapsNew (bs be s e : Int) : Bool :=
  !(be ≤ s) && !(bs ≥ e)

/-- The creation-path overlap scan
(`prisma.booking.findMany({where: {propertyId, NOT: [...]}})`): every
booking row of the property whose range is not fully before or fully
after the requested range.  The query has no status condition. -/
def overlappingBookings (bookings : List Booking) (propertyId : String)
    (s e : Int) : List Booking :=
  bookings.filter (fun b => b.propertyId == propertyId && overlapsNew b.startDate b.endDate s e)

/-- The distinct failure kinds of `BookingsService.create`, in source
order: invalid range, non-future start, missing property, range outside
the availability window (the error message carries the window bounds),
and overlap (the error carries every conflicting range rendered as
`YYYY-MM-DD` plus the requested range). -/
inductive CreateError where
  | invalidRange
  | notFuture
  | propertyNotFound (propertyId : String)
  | outOfWindow (availableFrom availableTo : Int)
  | overlap (overlaps : List (String × String)) (requested : String × String)
deriving DecidableEq, Repr

/-- `BookingsService.create` after input parsing: the requested range is
already a pair of day numbers (the DTO layer guarantees the date strings
matched `DD-MM-YYYY` and were converted by `parseDate`), `now` is the
current moment, `newId` the id the store assigns.  Checks run in source
order; the first failure is raised and nothing is persisted. -/
def create (now : Int) (props : List Property) (bookings : List Booking)
    (newId propertyId userName : String) (s e : Int) : Except CreateError Booking :=
  if !isValidDateRange s e then Except.error CreateError.invalidRange
  else if !isFutureDate now s then Except.error CreateError.notFuture
  else
    match findProperty props propertyId with
    | none => Except.error (CreateError.propertyNotFound propertyId)
    | some property =>
      if s < property.availableFrom || e > property.availableTo then
        Except.error (CreateError.outOfWindow property.availableFrom property.availableTo)
      else
        let ov := overlappingBookings bookings propertyId s e
        if ov.length > 0 then
          Except.error (CreateError.overlap
            (ov.map (fun b => (toCanonical b.startDate, toCanonical b.endDate)))
            (toCanonical s, toCanonical e))
        else
          Except.ok { id := newId, propertyId := propertyId, userName := userName,
                      startDate := s, endDate := e, status := BookingStatus.confirmed }

/-- The booking store after a `create` call: the new record is appended
on success; on any error the service throws before `prisma.booking.create`,
so the store is unchanged. -/
def createStore (now : Int) (props : List Property) (bookings : List Booking)
    (newId propertyId userName : String) (s e : Int) : List Booking :=
  match create now props bookings newId propertyId userName s e with
  | Except.ok b => bookings ++ [b]
  | Except.error _ => bookings

/-- The per-row condition of the `checkPropertyAvailability` query: the
three-disjunct `OR` on an existing row `[bs, be)` against the requested
`[s, e)`. -/
def conflictsUpdate (bs be s e : Int) : Bool :=
  (bs ≤ s && be > s) || (bs < e && be ≥ e) || (bs ≥ s && be ≤ e)

/-- `BookingsService.checkPropertyAvailability`: true iff no booking of
the property — other than the optionally excluded one — satisfies the
three-disjunct conflict condition.  The query has no status condition. -/
def checkPropertyAvailability (bookings : List Booking) (propertyId : String)
    (s e : Int) (excludeBookingId : Option String) : Bool :=
  (bookings.filter (fun b =>
      b.propertyId == propertyId &&
      (match excludeBookingId with
       | some ex => b.id != ex
       | none => true) &&
      conflictsUpdate b.startDate b.endDate s e)).length == 0

end BookingApi

namespace BookingApi

/-- `new Date(string)` on an ECMAScript date-only ISO string
`YYYY-MM-DD` (the format the update path receives in practice): parsed
as the UTC calendar date when the components are in range, an invalid
date otherwise (out-of-range components or any other shape yield an
invalid date; non-ISO shapes are implementation-defined in ECMAScript
and are not relied on by any theorem below). -/
def nativeParseDate (s : String) : JsDate :=
  match s.toList with
  | [y1, y2, y3, y4, '-', m1, m2, '-', d1, d2] =>
    if y1.isDigit && y2.isDigit && y3.isDigit && y4.isDigit &&
       m1.isDigit && m2.isDigit && d1.isDigit && d2.isDigit then
      let y : Int := Int.ofNat (digitsToNat [y1, y2, y3, y4])
      let m : Int := Int.ofNat (digitsToNat [m1, m2])
      let d : Int := Int.ofNat (digitsToNat [d1, d2])
      let leap : Bool := (Int.fmod y 4 == 0 && Int.fmod y 100 != 0) || Int.fmod y 400 == 0
      let dim : Int :=
        if m == 2 then (if leap then 29 else 28)
        else if m == 4 || m == 6 || m == 9 || m == 11 then 30
        else 31
      if 1 ≤ m && m ≤ 12 && 1 ≤ d && d ≤ dim then
        JsDate.valid (daysFromCivil y m d)
      else JsDate.invalid
    else JsDate.invalid
  | _ => JsDate.invalid

/-- The update request body (`UpdateBookingDto`): every field optional;
date fields are raw strings, converted inside the service. -/
structure UpdateBookingDto where
  propertyId : Option String
  userName : Option String
  startDate : Option String
  endDate : Option String
deriving DecidableEq, Repr

/-- `InputUtils.trimObject` on an update body: every present string
field is trimmed. -/
def trimUpdateDto (dto : UpdateBookingDto) : UpdateBookingDto :=
  { propertyId := dto.propertyId.map jsTrim,
    userName := dto.userName.map jsTrim,
    startDate := dto.startDate.map jsTrim,
    endDate := dto.endDate.map jsTrim }

/-- JavaScript truthiness of an optional string: present and non-empty. -/
def truthy : Option String → Bool
  | some s => s != ""
  | none => false

/-- `trimmedDto.field ? new Date(trimmedDto.field) : undefined`: an
absent or empty (falsy) string stays `undefined`; a non-empty string is
converted (possibly to an invalid date, which is still a present,
truthy object). -/
def toDateIfTruthy : Option String → Option JsDate
  | some s => if s != "" then some (nativeParseDate s) else none
  | none => none

/-- The failure kinds of `BookingsService.update`, in source order.
`notAvailable` is the conflict rejection: a fixed message with no
conflicting-range payload.  `writeFailed` models the store error thrown
by `prisma.booking.update` when no record has the id (the preceding
`findOne` call returns an error envelope instead of throwing, so a
missing booking reaches the write). -/
inductive UpdateError where
  | invalidRange
  | missingExistingEnd
  | invalidStartVsExistingEnd
  | missingExistingStart
  | invalidEndVsExistingStart
  | notFuture
  | missingPropertyId
  | missingDates
  | notAvailable
  | writeFailed
deriving DecidableEq, Repr

/-- The field spread of the final `prisma.booking.update` call: only a
truthy `propertyId` / `userName` and a present date object are written;
everything else keeps the persisted value. -/
def applyUpdateFields (trimmedDto : UpdateBookingDto)
    (startDateObj endDateObj : Option JsDate) (b : Booking) : Booking :=
  { b with
    propertyId :=
      match trimmedDto.propertyId with
      | some p => if p != "" then p else b.propertyId
      | none => b.propertyId,
    userName :=
      match trimmedDto.userName with
      | some u => if u != "" then u else b.userName
      | none => b.userName,
    startDate :=
      match startDateObj with
      | some (JsDate.valid d) => d
      | _ => b.startDate,
    endDate :=
      match endDateObj with
      | some (JsDate.valid d) => d
      | _ => b.endDate }

/-- `BookingsService.update` from the future-start check onward (the
service continues with the same locals after the range validations):
future check, conditional availability re-check excluding the booking
itself, then the write of the truthy / present fields. -/
def updateValidated (now : Int) (bookings : List Booking) (id : String)
    (trimmedDto : UpdateBookingDto) (startDateObj endDateObj : Option JsDate) :
    Except UpdateError (List Booking) :=
  let futureOk :=
    match startDateObj with
    | some (JsDate.valid d) => isFutureDate now d
    | some JsDate.invalid => false
    | none => true
  if !futureOk then Except.error UpdateError.notFuture
  else
    let needsAvailability :=
      startDateObj.isSome || endDateObj.isSome || truthy trimmedDto.propertyId
    let availabilityResult : Except UpdateError Unit :=
      if needsAvailability then
        let existing := findBooking bookings id
        let propertyId :=
          if truthy trimmedDto.propertyId then trimmedDto.propertyId
          else existing.map Booking.propertyId
        let startDate :=
          match startDateObj with
          | some sj => some sj
          | none => existing.map (fun b => JsDate.valid b.startDate)
        let endDate :=
          match endDateObj with
          | some ej => some ej
          | none => existing.map (fun b => JsDate.valid b.endDate)
        match propertyId with
        | none => Except.error UpdateError.missingPropertyId
        | some pid =>
          match startDate, endDate with
          | some (JsDate.valid s), some (JsDate.valid e) =>
            if !checkPropertyAvailability bookings pid s e (some id) then
              Except.error UpdateError.notAvailable
            else Except.ok ()
          | none, _ => Except.error UpdateError.missingDates
          | _, none => Except.error UpdateError.missingDates
          | _, _ =>
            -- A present invalid date cannot reach this point: the
            -- range validations above already rejected it.
            Except.error UpdateError.notAvailable
      else Except.ok ()
    match availabilityResult with
    | Except.error err => Except.error err
    | Except.ok _ =>
      match findBooking bookings id with
      | none => Except.error UpdateError.writeFailed
      | some _ =>
        Except.ok (bookings.map (fun b =>
          if b.id == id then applyUpdateFields trimmedDto startDateObj endDateObj b
          else b))

/-- `BookingsService.update`: trims the body, converts present date
strings, validates order (against the other provided bound or the
persisted one), then continues with `updateValidated`. -/
def update (now : Int) (bookings : List Booking) (id : String)
    (dto : UpdateBookingDto) : Except UpdateError (List Booking) :=
  let trimmedDto := trimUpdateDto dto
  let startDateObj := toDateIfTruthy trimmedDto.startDate
  let endDateObj := toDateIfTruthy trimmedDto.endDate
  match startDateObj, endDateObj with
  | some sj, some ej =>
    if !jsLt sj ej then Except.error UpdateError.invalidRange
    else updateValidated now bookings id trimmedDto startDateObj endDateObj
  | some sj, none =>
    match findBooking bookings id with
    | none => Except.error UpdateError.missingExistingEnd
    | some existing =>
      if !jsLt sj (JsDate.valid existing.endDate) then
        Except.error UpdateError.invalidStartVsExistingEnd
      else updateValidated now bookings id trimmedDto startDateObj endDateObj
  | none, some ej =>
    match findBooking bookings id with
    | none => Except.error UpdateError.missingExistingStart
    | some existing =>
      if !jsLt (JsDate.valid existing.startDate) ej then
        Except.error UpdateError.invalidEndVsExistingStart
      else updateValidated now bookings id trimmedDto startDateObj endDateObj
  | none, none => updateValidated now bookings id trimmedDto startDateObj endDateObj

/-- `BookingsService.remove`: cancellation is a status transition, never
a removal; a missing id is reported as an error envelope. -/
def remove (bookings : List Booking) (id : String) : Except String (List Booking) :=
  match findBooking bookings id with
  | none => Except.error "not found"
  | some _ =>
    Except.ok (bookings.map (fun b =>
      if b.id == id then { b with status := BookingStatus.cancelled } else b))

/-- `PropertiesService.getAvailability`: the property's window plus the
rendered date ranges of every booking row whose `propertyId` matches —
the query carries no status condition. -/
def getAvailability (props : List Property) (bookings : List Booking)
    (id : String) : Except String (String × String × List (String × String)) :=
  match findProperty props id with
  | none => Except.error "not found"
  | some property =>
    Except.ok (toCanonical property.availableFrom, toCanonical property.availableTo,
      (bookings.filter (fun b => b.propertyId == id)).map
        (fun b => (toCanonical b.startDate, toCanonical b.endDate)))

end BookingApi

namespace BookingApi

/-- Running example property: availability window
2025-03-01 .. 2025-11-30. -/
def exProperty : Property :=
  { id := "p1", availableFrom := daysFromCivil 2025 3 1,
    availableTo := daysFromCivil 2025 11 30, status := PropertyStatus.active }

/-- Running example booking: 2025-08-10 .. 2025-08-12 on `p1`. -/
def exBooking1 : Booking :=
  { id := "b1", propertyId := "p1", userName := "ada",
    startDate := daysFromCivil 2025 8 10, endDate := daysFromCivil 2025 8 12,
    status := BookingStatus.confirmed }

/-- Running example booking: 2025-08-20 .. 2025-08-22 on `p1`. -/
def exBooking2 : Booking :=
  { id := "b2", propertyId := "p1", userName := "bob",
    startDate := daysFromCivil 2025 8 20, endDate := daysFromCivil 2025 8 22,
    status := BookingStatus.confirmed }

/-- `exBooking1` after cancellation. -/
def exBooking1Cancelled : Booking :=
  { exBooking1 with status := BookingStatus.cancelled }

/-- The current moment of the examples: 2025-07-01. -/
def exNow : Int := daysFromCivil 2025 7 1

end BookingApi

namespace BookingApi

/-- C9: for date ranges with `s1 < e1` and `s2 < e2`, the creation-path
overlap condition `NOT (e1 <= s2 OR s1 >= e2)` and the three-disjunct
conflict condition of `checkPropertyAvailability` classify exactly the
same pairs as conflicting. -/
theorem overlap_predicates_equivalent (bs be s e : Int)
    (hExisting : bs < be) (hNew : s < e) :
    overlapsNew bs be s e = true ↔ conflictsUpdate bs be s e = true := by
  simp only [overlapsNew, conflictsUpdate, Bool.and_eq_true, Bool.or_eq_true,
    Bool.not_eq_true', decide_eq_true_eq, decide_eq_false_iff_not, not_le, not_lt, ge_iff_le]
  omega

/-- Witness for C9 at the concrete ranges `[0,2)` and `[1,3)`. -/
theorem overlap_predicates_equivalent_witness :
    (0 : Int) < 2 ∧ (1 : Int) < 3 ∧
      (overlapsNew 0 2 1 3 = true ↔ conflictsUpdate 0 2 1 3 = true) :=
  ⟨by decide, by decide, overlap_predicates_equivalent 0 2 1 3 (by decide) (by decide)⟩

/-- C6 counterexample: the booking input path is not format-agnostic —
`2024-03-15` fails the `DD-MM-YYYY` input pattern, and
`InputUtils.parseDate` applied to `2024-03-15` reads its fields as
day 2024, month 03, year 15, so it does not yield the calendar date
produced by parsing `15-03-2024`. -/
theorem parseDate_not_format_agnostic :
    matchesDDMMYYYY "2024-03-15" = false ∧
    isDDMMYYYYDateValidate "2024-03-15" = false ∧
    parseDate "2024-03-15" ≠ parseDate "15-03-2024" := by decide

/-- C6 amended: the booking input path accepts only the `DD-MM-YYYY`
encoding; parsing `15-03-2024` yields the calendar date 2024-03-15,
whose canonical rendering is `2024-03-15`, while `2024-03-15` itself is
rejected by the input pattern. -/
theorem parseDate_ddmmyyyy_roundtrip :
    isDDMMYYYYDateValidate "15-03-2024" = true ∧
    parseDate "15-03-2024" = JsDate.valid (daysFromCivil 2024 3 15) ∧
    toCanonical (daysFromCivil 2024 3 15) = "2024-03-15" ∧
    matchesDDMMYYYY "2024-03-15" = false := by decide

/-- C2: a cancelled booking still blocks admission and still appears in
the property's booked dates.  Cancelling `exBooking1` (2025-08-10 ..
2025-08-12) and then requesting 2025-08-11 .. 2025-08-13 on the same
property is rejected as an overlap listing the cancelled range, and
`getAvailability` still lists the cancelled range: the creation-path
overlap query and the availability query carry no status condition. -/
theorem cancelled_booking_still_blocks :
    remove [exBooking1] "b1" = Except.ok [exBooking1Cancelled] ∧
    exBooking1Cancelled.status = BookingStatus.cancelled ∧
    create exNow [exProperty] [exBooking1Cancelled] "b9" "p1" "eve"
        (daysFromCivil 2025 8 11) (daysFromCivil 2025 8 13) =
      Except.error (CreateError.overlap [("2025-08-10", "2025-08-12")]
        ("2025-08-11", "2025-08-13")) ∧
    getAvailability [exProperty] [exBooking1Cancelled] "p1" =
      Except.ok ("2025-03-01", "2025-11-30", [("2025-08-10", "2025-08-12")]) := by
  decide

/-- C3 counterexample: the update path performs no window-containment
check.  `exBooking1` on a property whose window ends 2025-11-30 is
updated to 2025-12-01 .. 2025-12-05 — entirely outside the window — and
the update is admitted. -/
theorem update_out_of_window_admitted :
    exBooking1.propertyId = exProperty.id ∧
    exProperty.availableTo < daysFromCivil 2025 12 1 ∧
    update exNow [exBooking1] "b1"
        { propertyId := none, userName := none,
          startDate := some "2025-12-01", endDate := some "2025-12-05" } =
      Except.ok [{ exBooking1 with
        startDate := daysFromCivil 2025 12 1, endDate := daysFromCivil 2025 12 5 }] := by
  decide

/-- C4 counterexample: an update rejected for overlap carries no list of
conflicting ranges.  Updating `exBooking2` to 2025-08-11 .. 2025-08-12
conflicts with `exBooking1` (2025-08-10 .. 2025-08-12), and the
rejection is the bare `notAvailable` conflict — a fixed message with
neither the conflicting ranges nor the requested range. -/
theorem update_conflict_carries_no_list :
    conflictsUpdate exBooking1.startDate exBooking1.endDate
        (daysFromCivil 2025 8 11) (daysFromCivil 2025 8 12) = true ∧
    update exNow [exBooking1, exBooking2] "b2"
        { propertyId := none, userName := none,
          startDate := some "2025-08-11", endDate := some "2025-08-12" } =
      Except.error UpdateError.notAvailable := by
  decide

end BookingApi

namespace BookingApi

/-- The creation-path overlap scan finds nothing exactly when every
booking of the property is fully before or fully after the requested
range. -/
theorem overlappingBookings_eq_nil (bookings : List Booking) (pid : String) (s e : Int) :
    overlappingBookings bookings pid s e = [] ↔
      ∀ b ∈ bookings, b.propertyId = pid → b.endDate ≤ s ∨ e ≤ b.startDate := by
  rw [overlappingBookings, List.filter_eq_nil_iff]
  constructor
  · intro h b hb hpid
    have := h b hb
    simp only [Bool.and_eq_true, beq_iff_eq, not_and, overlapsNew, Bool.not_eq_true',
      decide_eq_false_iff_not, not_le, not_lt, not_and, not_or] at this
    have h2 := this hpid
    omega
  · intro h b hb
    simp only [Bool.and_eq_true, beq_iff_eq, not_and, overlapsNew, Bool.not_eq_true',
      decide_eq_false_iff_not, not_le, not_lt]
    intro hpid
    have := h b hb hpid
    omega

/-- Membership in the creation-path overlap scan is exactly the strict
two-sided intersection condition. -/
theorem mem_overlappingBookings (bookings : List Booking) (pid : String) (s e : Int)
    (b : Booking) :
    b ∈ overlappingBookings bookings pid s e ↔
      b ∈ bookings ∧ b.propertyId = pid ∧ s < b.endDate ∧ b.startDate < e := by
  rw [overlappingBookings, List.mem_filter]
  simp only [Bool.and_eq_true, beq_iff_eq, overlapsNew, Bool.not_eq_true',
    decide_eq_false_iff_not, not_le, not_lt, ge_iff_le]

/-- C1: the creation path counts an existing range `[s1, e1)` as
overlapping the requested `[s2, e2)` exactly when
`NOT (e1 <= s2 OR s1 >= e2)` holds, and when every other check passes
and every existing booking of the property ends on or before the
requested start or starts on or after the requested end — in particular
one ending exactly on the requested start date — the request is not an
overlap and is admitted. -/
theorem create_overlap_half_open (now : Int) (props : List Property)
    (bookings : List Booking) (newId pid user : String) (s e : Int)
    (p : Property) (hp : findProperty props pid = some p)
    (hrange : s < e) (hfut : now < s)
    (hfrom : p.availableFrom ≤ s) (hto : e ≤ p.availableTo)
    (hnoov : ∀ b ∈ bookings, b.propertyId = pid → b.endDate ≤ s ∨ e ≤ b.startDate) :
    (∀ bs be : Int, overlapsNew bs be s e = true ↔ ¬(be ≤ s ∨ bs ≥ e)) ∧
    create now props bookings newId pid user s e =
      Except.ok { id := newId, propertyId := pid, userName := user,
                  startDate := s, endDate := e, status := BookingStatus.confirmed } := by
  constructor
  · intro bs be
    simp only [overlapsNew, Bool.and_eq_true, Bool.not_eq_true', decide_eq_false_iff_not,
      not_le, not_lt, ge_iff_le, not_or]
  · have hov : overlappingBookings bookings pid s e = [] :=
      (overlappingBookings_eq_nil bookings pid s e).mpr hnoov
    have h1 : isValidDateRange s e = true := decide_eq_true hrange
    have h2 : isFutureDate now s = true := decide_eq_true hfut
    simp only [create, h1, h2, Bool.not_true, Bool.false_eq_true, if_false, hp, hov]
    have h3 : (decide (s < p.availableFrom) || decide (e > p.availableTo)) = false := by
      simp only [Bool.or_eq_false_iff, decide_eq_false_iff_not, not_lt, gt_iff_lt]
      exact ⟨hfrom, hto⟩
    simp [h3]

end BookingApi

namespace BookingApi

/-- Witness for C1: with an existing booking 2025-08-10 .. 2025-08-12,
the back-to-back request 2025-08-12 .. 2025-08-14 is admitted. -/
theorem create_overlap_half_open_witness :
    create exNow [exProperty] [exBooking1] "b9" "p1" "eve"
        (daysFromCivil 2025 8 12) (daysFromCivil 2025 8 14) =
      Except.ok { id := "b9", propertyId := "p1", userName := "eve",
                  startDate := daysFromCivil 2025 8 12, endDate := daysFromCivil 2025 8 14,
                  status := BookingStatus.confirmed } :=
  (create_overlap_half_open exNow [exProperty] [exBooking1] "b9" "p1" "eve"
    (daysFromCivil 2025 8 12) (daysFromCivil 2025 8 14) exProperty
    (by decide) (by decide) (by decide) (by decide) (by decide) (by decide)).2

/-- C3 amended: window containment (`availableFrom <= startDate` and
`endDate <= availableTo`, inclusive) is enforced on the creation path
only: once the earlier checks pass, creation fails with the
window-naming client error exactly when the range leaves the window,
and a created booking's range always lies inside the window.  The
update path performs no window-containment check. -/
theorem create_window_containment (now : Int) (props : List Property)
    (bookings : List Booking) (newId pid user : String) (s e : Int)
    (p : Property) (hp : findProperty props pid = some p)
    (hrange : s < e) (hfut : now < s) :
    (create now props bookings newId pid user s e =
        Except.error (CreateError.outOfWindow p.availableFrom p.availableTo) ↔
      (s < p.availableFrom ∨ p.availableTo < e)) ∧
    (∀ bk, create now props bookings newId pid user s e = Except.ok bk →
      p.availableFrom ≤ s ∧ e ≤ p.availableTo) := by
  have h1 : isValidDateRange s e = true := decide_eq_true hrange
  have h2 : isFutureDate now s = true := decide_eq_true hfut
  by_cases h4 : s < p.availableFrom ∨ p.availableTo < e
  · have h3 : (decide (s < p.availableFrom) || decide (e > p.availableTo)) = true := by
      simp only [Bool.or_eq_true, decide_eq_true_eq, gt_iff_lt]
      omega
    have hc : create now props bookings newId pid user s e =
        Except.error (CreateError.outOfWindow p.availableFrom p.availableTo) := by
      simp [create, h1, h2, hp, h3]
    refine ⟨by simp [hc, h4], ?_⟩
    intro bk hbk
    rw [hc] at hbk
    exact absurd hbk (by simp)
  · have h3 : (decide (s < p.availableFrom) || decide (e > p.availableTo)) = false := by
      simp only [Bool.or_eq_false_iff, decide_eq_false_iff_not, not_lt, gt_iff_lt]
      omega
    constructor
    · rcases hov : overlappingBookings bookings pid s e with _ | ⟨b0, rest⟩
      · have hc : create now props bookings newId pid user s e =
            Except.ok { id := newId, propertyId := pid, userName := user,
                        startDate := s, endDate := e, status := BookingStatus.confirmed } := by
          simp [create, h1, h2, hp, h3, hov]
        simp [hc, h4]
      · have hc : create now props bookings newId pid user s e =
            Except.error (CreateError.overlap
              ((overlappingBookings bookings pid s e).map
                (fun b => (toCanonical b.startDate, toCanonical b.endDate)))
              (toCanonical s, toCanonical e)) := by
          simp [create, h1, h2, hp, h3, hov]
        simp [hc, h4]
    · intro bk _
      omega

/-- Witness for C3 amended: a request 2025-12-01 .. 2025-12-05 against
the window 2025-03-01 .. 2025-11-30 is rejected with the error naming
the window. -/
theorem create_window_containment_witness :
    create exNow [exProperty] [] "b9" "p1" "eve"
        (daysFromCivil 2025 12 1) (daysFromCivil 2025 12 5) =
      Except.error (CreateError.outOfWindow exProperty.availableFrom exProperty.availableTo) :=
  ((create_window_containment exNow [exProperty] [] "b9" "p1" "eve"
    (daysFromCivil 2025 12 1) (daysFromCivil 2025 12 5) exProperty
    (by decide) (by decide) (by decide)).1).mpr (by decide)

/-- C4 amended: on the creation path, an overlap rejection carries the
full list of all conflicting existing ranges — the scan contains
exactly every booking of the property whose range strictly intersects
the request — each rendered canonically, together with the requested
range.  The update path's conflict rejection carries no such payload. -/
theorem create_overlap_full_conflict_list (now : Int) (props : List Property)
    (bookings : List Booking) (newId pid user : String) (s e : Int)
    (p : Property) (hp : findProperty props pid = some p)
    (hrange : s < e) (hfut : now < s)
    (hfrom : p.availableFrom ≤ s) (hto : e ≤ p.availableTo)
    (hne : overlappingBookings bookings pid s e ≠ []) :
    create now props bookings newId pid user s e =
      Except.error (CreateError.overlap
        ((overlappingBookings bookings pid s e).map
          (fun b => (toCanonical b.startDate, toCanonical b.endDate)))
        (toCanonical s, toCanonical e)) ∧
    (∀ b, b ∈ overlappingBookings bookings pid s e ↔
      b ∈ bookings ∧ b.propertyId = pid ∧ s < b.endDate ∧ b.startDate < e) := by
  have h1 : isValidDateRange s e = true := decide_eq_true hrange
  have h2 : isFutureDate now s = true := decide_eq_true hfut
  have h3 : (decide (s < p.availableFrom) || decide (e > p.availableTo)) = false := by
    simp only [Bool.or_eq_false_iff, decide_eq_false_iff_not, not_lt, gt_iff_lt]
    omega
  refine ⟨?_, fun b => mem_overlappingBookings bookings pid s e b⟩
  rcases hov : overlappingBookings bookings pid s e with _ | ⟨b0, rest⟩
  · exact absurd hov hne
  · simp [create, h1, h2, hp, h3, hov]

/-- Witness for C4 amended: with existing bookings 2025-08-10 ..
2025-08-12 and 2025-08-20 .. 2025-08-22, the request 2025-08-11 ..
2025-08-21 is rejected with both conflicting ranges listed alongside
the requested range. -/
theorem create_overlap_full_conflict_list_witness :
    create exNow [exProperty] [exBooking1, exBooking2] "b9" "p1" "eve"
        (daysFromCivil 2025 8 11) (daysFromCivil 2025 8 21) =
      Except.error (CreateError.overlap
        [("2025-08-10", "2025-08-12"), ("2025-08-20", "2025-08-22")]
        ("2025-08-11", "2025-08-21")) :=
  ((create_overlap_full_conflict_list exNow [exProperty] [exBooking1, exBooking2]
    "b9" "p1" "eve" (daysFromCivil 2025 8 11) (daysFromCivil 2025 8 21) exProperty
    (by decide) (by decide) (by decide) (by decide) (by decide) (by decide)).1).trans
    (by decide)

end BookingApi

namespace BookingApi

/-- C5: booking creation runs its checks in the fixed order
range-validity (strict `startDate < endDate`), future-start,
property-existence, window-containment, overlap — each check fails with
its own distinct error, the first failing check determines the result,
and on any error the booking store is left unchanged. -/
theorem create_first_failing_check (now : Int) (props : List Property)
    (bookings : List Booking) (newId pid user : String) (s e : Int) :
    (e ≤ s → create now props bookings newId pid user s e =
      Except.error CreateError.invalidRange) ∧
    (s < e → s ≤ now → create now props bookings newId pid user s e =
      Except.error CreateError.notFuture) ∧
    (s < e → now < s → findProperty props pid = none →
      create now props bookings newId pid user s e =
        Except.error (CreateError.propertyNotFound pid)) ∧
    (∀ p, s < e → now < s → findProperty props pid = some p →
      (s < p.availableFrom ∨ p.availableTo < e) →
      create now props bookings newId pid user s e =
        Except.error (CreateError.outOfWindow p.availableFrom p.availableTo)) ∧
    (∀ p, s < e → now < s → findProperty props pid = some p →
      p.availableFrom ≤ s → e ≤ p.availableTo →
      overlappingBookings bookings pid s e ≠ [] →
      create now props bookings newId pid user s e =
        Except.error (CreateError.overlap
          ((overlappingBookings bookings pid s e).map
            (fun b => (toCanonical b.startDate, toCanonical b.endDate)))
          (toCanonical s, toCanonical e))) ∧
    (∀ p, s < e → now < s → findProperty props pid = some p →
      p.availableFrom ≤ s → e ≤ p.availableTo →
      overlappingBookings bookings pid s e = [] →
      create now props bookings newId pid user s e =
        Except.ok { id := newId, propertyId := pid, userName := user,
                    startDate := s, endDate := e, status := BookingStatus.confirmed }) ∧
    (∀ err, create now props bookings newId pid user s e = Except.error err →
      createStore now props bookings newId pid user s e = bookings) := by
  refine ⟨?_, ?_, ?_, ?_, ?_, ?_, ?_⟩
  · intro h
    have h1 : isValidDateRange s e = false := decide_eq_false (by omega)
    simp [create, h1]
  · intro h1 h2
    have hv : isValidDateRange s e = true := decide_eq_true h1
    have hf : isFutureDate now s = false := decide_eq_false (by omega)
    simp [create, hv, hf]
  · intro h1 h2 hnp
    have hv : isValidDateRange s e = true := decide_eq_true h1
    have hf : isFutureDate now s = true := decide_eq_true h2
    simp [create, hv, hf, hnp]
  · intro p h1 h2 hp hw
    have hv : isValidDateRange s e = true := decide_eq_true h1
    have hf : isFutureDate now s = true := decide_eq_true h2
    have h3 : (decide (s < p.availableFrom) || decide (e > p.availableTo)) = true := by
      simp only [Bool.or_eq_true, decide_eq_true_eq, gt_iff_lt]
      omega
    simp [create, hv, hf, hp, h3]
  · intro p h1 h2 hp hfrom hto hne
    have hv : isValidDateRange s e = true := decide_eq_true h1
    have hf : isFutureDate now s = true := decide_eq_true h2
    have h3 : (decide (s < p.availableFrom) || decide (e > p.availableTo)) = false := by
      simp only [Bool.or_eq_false_iff, decide_eq_false_iff_not, not_lt, gt_iff_lt]
      omega
    rcases hov : overlappingBookings bookings pid s e with _ | ⟨b0, rest⟩
    · exact absurd hov hne
    · simp [create, hv, hf, hp, h3, hov]
  · intro p h1 h2 hp hfrom hto hov
    have hv : isValidDateRange s e = true := decide_eq_true h1
    have hf : isFutureDate now s = true := decide_eq_true h2
    have h3 : (decide (s < p.availableFrom) || decide (e > p.availableTo)) = false := by
      simp only [Bool.or_eq_false_iff, decide_eq_false_iff_not, not_lt, gt_iff_lt]
      omega
    simp [create, hv, hf, hp, h3, hov]
  · intro err herr
    simp [createStore, herr]

/-- Witness for C5: a request with `endDate <= startDate` fails with the
range-validity error and leaves the store unchanged. -/
theorem create_first_failing_check_witness :
    create exNow [exProperty] [exBooking1] "b9" "p1" "eve"
        (daysFromCivil 2025 8 14) (daysFromCivil 2025 8 12) =
      Except.error CreateError.invalidRange ∧
    createStore exNow [exProperty] [exBooking1] "b9" "p1" "eve"
        (daysFromCivil 2025 8 14) (daysFromCivil 2025 8 12) = [exBooking1] := by
  have h := create_first_failing_check exNow [exProperty] [exBooking1] "b9" "p1" "eve"
    (daysFromCivil 2025 8 14) (daysFromCivil 2025 8 12)
  have hc := h.1 (by decide)
  exact ⟨hc, h.2.2.2.2.2.2 CreateError.invalidRange hc⟩

end BookingApi

namespace BookingApi

/-- C8: when updating booking `B`'s own dates, `B`'s prior range is
excluded from the overlap scan: an update of `B` to a range conflicting
with no other booking of the property — whatever `B`'s own prior range
was — is admitted, and only `B`'s dates change. -/
theorem update_excludes_own_prior_range (now : Int) (bookings : List Booking)
    (id : String) (b : Booking) (hb : findBooking bookings id = some b)
    (ss se : String) (s e : Int)
    (hts : jsTrim ss = ss) (hte : jsTrim se = se)
    (hps : nativeParseDate ss = JsDate.valid s)
    (hpe : nativeParseDate se = JsDate.valid e)
    (hrange : s < e) (hfut : now < s)
    (hothers : ∀ b' ∈ bookings, b'.id ≠ id → b'.propertyId = b.propertyId →
      conflictsUpdate b'.startDate b'.endDate s e = false) :
    update now bookings id
        { propertyId := none, userName := none, startDate := some ss, endDate := some se } =
      Except.ok (bookings.map (fun x =>
        if x.id == id then { x with startDate := s, endDate := e } else x)) := by
  have hinv : nativeParseDate "" = JsDate.invalid := by decide
  have hss : ss ≠ "" := by
    intro h
    rw [h, hinv] at hps
    cases hps
  have hse2 : se ≠ "" := by
    intro h
    rw [h, hinv] at hpe
    cases hpe
  have htd : trimUpdateDto
      { propertyId := none, userName := none, startDate := some ss, endDate := some se } =
      { propertyId := none, userName := none, startDate := some ss, endDate := some se } := by
    simp [trimUpdateDto, hts, hte]
  have hso : toDateIfTruthy (some ss) = some (JsDate.valid s) := by
    simp [toDateIfTruthy, hss, hps]
  have heo : toDateIfTruthy (some se) = some (JsDate.valid e) := by
    simp [toDateIfTruthy, hse2, hpe]
  have hjslt : jsLt (JsDate.valid s) (JsDate.valid e) = true := decide_eq_true hrange
  have hfu : isFutureDate now s = true := decide_eq_true hfut
  have havail : checkPropertyAvailability bookings b.propertyId s e (some id) = true := by
    simp only [checkPropertyAvailability, beq_iff_eq, List.length_eq_zero]
    apply List.filter_eq_nil_iff.mpr
    intro x hx hcontra
    simp only [Bool.and_eq_true, beq_iff_eq, bne_iff_ne, ne_eq] at hcontra
    obtain ⟨⟨h1, h2⟩, h3⟩ := hcontra
    rw [hothers x hx h2 h1] at h3
    cases h3
  simp [update, updateValidated, applyUpdateFields, truthy, htd, hso, heo, hjslt,
    hfu, hb, havail]

/-- Witness for C8: `exBooking1` (2025-08-10 .. 2025-08-12) is moved to
2025-08-09 .. 2025-08-12 — a range overlapping only its own prior range
— and the update is admitted, alongside `exBooking2`. -/
theorem update_excludes_own_prior_range_witness :
    update exNow [exBooking1, exBooking2] "b1"
        { propertyId := none, userName := none,
          startDate := some "2025-08-09", endDate := some "2025-08-12" } =
      Except.ok [{ exBooking1 with
          startDate := daysFromCivil 2025 8 9, endDate := daysFromCivil 2025 8 12 },
        exBooking2] := by
  have h := update_excludes_own_prior_range exNow [exBooking1, exBooking2] "b1"
    exBooking1 (by decide) "2025-08-09" "2025-08-12"
    (daysFromCivil 2025 8 9) (daysFromCivil 2025 8 12)
    (by decide) (by decide) (by decide) (by decide) (by decide) (by decide)
    (by decide)
  exact h.trans (by decide)

/-- Every successful run of the post-validation stage of `update`
writes exactly the truthy / present fields onto the record with the
given id. -/
theorem updateValidated_ok_shape (now : Int) (bookings : List Booking)
    (id : String) (td : UpdateBookingDto) (so eo : Option JsDate)
    (res : List Booking)
    (hok : updateValidated now bookings id td so eo = Except.ok res) :
    res = bookings.map (fun x =>
      if x.id == id then applyUpdateFields td so eo x else x) := by
  simp only [updateValidated] at hok
  repeat' split at hok
  all_goals first
    | exact Except.noConfusion hok
    | (injection hok with h; exact h.symm)

/-- C10: for every booking update, a field absent from the request or
whose trimmed value is the empty string is never written: every
successful update writes exactly `applyUpdateFields` onto the targeted
record, and that write keeps the persisted `propertyId`, `userName`,
`startDate` or `endDate` whenever the corresponding request field is
absent or blank — so e.g. supplying only `startDate` leaves the other
three unchanged; in particular an update supplying only `userName`
succeeds with no date-order, future-start, window or overlap
re-validation and modifies only `userName`. -/
theorem update_field_frame (now : Int) (bookings : List Booking)
    (id : String) (dto : UpdateBookingDto) :
    (∀ res, update now bookings id dto = Except.ok res →
      res = bookings.map (fun x =>
        if x.id == id then
          applyUpdateFields (trimUpdateDto dto)
            (toDateIfTruthy (trimUpdateDto dto).startDate)
            (toDateIfTruthy (trimUpdateDto dto).endDate) x
        else x)) ∧
    (∀ x : Booking,
      ((∀ v, dto.propertyId = some v → jsTrim v = "") →
        (applyUpdateFields (trimUpdateDto dto)
          (toDateIfTruthy (trimUpdateDto dto).startDate)
          (toDateIfTruthy (trimUpdateDto dto).endDate) x).propertyId = x.propertyId) ∧
      ((∀ v, dto.userName = some v → jsTrim v = "") →
        (applyUpdateFields (trimUpdateDto dto)
          (toDateIfTruthy (trimUpdateDto dto).startDate)
          (toDateIfTruthy (trimUpdateDto dto).endDate) x).userName = x.userName) ∧
      ((∀ v, dto.startDate = some v → jsTrim v = "") →
        (applyUpdateFields (trimUpdateDto dto)
          (toDateIfTruthy (trimUpdateDto dto).startDate)
          (toDateIfTruthy (trimUpdateDto dto).endDate) x).startDate = x.startDate) ∧
      ((∀ v, dto.endDate = some v → jsTrim v = "") →
        (applyUpdateFields (trimUpdateDto dto)
          (toDateIfTruthy (trimUpdateDto dto).startDate)
          (toDateIfTruthy (trimUpdateDto dto).endDate) x).endDate = x.endDate)) ∧
    (∀ b, findBooking bookings id = some b →
      (∀ v, dto.propertyId = some v → jsTrim v = "") →
      (∀ v, dto.startDate = some v → jsTrim v = "") →
      (∀ v, dto.endDate = some v → jsTrim v = "") →
      update now bookings id dto =
        Except.ok (bookings.map (fun x =>
          if x.id == id then
            { x with userName :=
                match dto.userName with
                | some u => if jsTrim u != "" then jsTrim u else x.userName
                | none => x.userName }
          else x))) := by
  refine ⟨?_, ?_, ?_⟩
  · intro res hok
    rcases hs : toDateIfTruthy (trimUpdateDto dto).startDate with _ | sj <;>
      rcases he : toDateIfTruthy (trimUpdateDto dto).endDate with _ | ej <;>
      simp only [update, hs, he] at hok <;>
      (repeat' split at hok) <;>
      first
        | exact Except.noConfusion hok
        | exact updateValidated_ok_shape _ _ _ _ _ _ _ hok
  · intro x
    refine ⟨?_, ?_, ?_, ?_⟩
    · intro hblank
      rcases hpx : dto.propertyId with _ | v
      · simp [applyUpdateFields, trimUpdateDto, hpx]
      · simp [applyUpdateFields, trimUpdateDto, hpx, hblank v hpx]
    · intro hblank
      rcases hux : dto.userName with _ | v
      · simp [applyUpdateFields, trimUpdateDto, hux]
      · simp [applyUpdateFields, trimUpdateDto, hux, hblank v hux]
    · intro hblank
      have hso : toDateIfTruthy ((trimUpdateDto dto).startDate) = none := by
        rcases hx : dto.startDate with _ | v
        · simp [trimUpdateDto, hx, toDateIfTruthy]
        · simp [trimUpdateDto, hx, toDateIfTruthy, hblank v hx]
      simp [applyUpdateFields, hso]
    · intro hblank
      have heo : toDateIfTruthy ((trimUpdateDto dto).endDate) = none := by
        rcases hx : dto.endDate with _ | v
        · simp [trimUpdateDto, hx, toDateIfTruthy]
        · simp [trimUpdateDto, hx, toDateIfTruthy, hblank v hx]
      simp [applyUpdateFields, heo]
  · intro b hb hpid hsd hed
    have hso : toDateIfTruthy ((trimUpdateDto dto).startDate) = none := by
      rcases hx : dto.startDate with _ | x
      · simp [trimUpdateDto, hx, toDateIfTruthy]
      · simp [trimUpdateDto, hx, toDateIfTruthy, hsd x hx]
    have heo : toDateIfTruthy ((trimUpdateDto dto).endDate) = none := by
      rcases hx : dto.endDate with _ | x
      · simp [trimUpdateDto, hx, toDateIfTruthy]
      · simp [trimUpdateDto, hx, toDateIfTruthy, hed x hx]
    have hpo : truthy ((trimUpdateDto dto).propertyId) = false := by
      rcases hx : dto.propertyId with _ | x
      · simp [trimUpdateDto, hx, truthy]
      · simp [trimUpdateDto, hx, truthy, hpid x hx]
    have hap : ∀ x : Booking,
        applyUpdateFields (trimUpdateDto dto) none none x =
        { x with userName :=
            match dto.userName with
            | some u => if jsTrim u != "" then jsTrim u else x.userName
            | none => x.userName } := by
      intro x
      rcases hux : dto.userName with _ | u
      · rcases hpx : dto.propertyId with _ | q
        · simp [applyUpdateFields, trimUpdateDto, hux, hpx]
        · simp [applyUpdateFields, trimUpdateDto, hux, hpx, hpid q hpx]
      · rcases hpx : dto.propertyId with _ | q
        · simp [applyUpdateFields, trimUpdateDto, hux, hpx]
        · simp [applyUpdateFields, trimUpdateDto, hux, hpx, hpid q hpx]
    simp only [update, hso, heo]
    simp only [updateValidated, hso, heo, Option.isSome_none, Bool.or_self, Bool.false_or,
      hpo, Bool.not_true, Bool.false_eq_true, if_false, if_true, hb]
    simp [hap]

/-- Witness for C10: supplying only `startDate` (2025-08-09) to update
`exBooking1` succeeds writing exactly the `applyUpdateFields` image,
whose `endDate` is `exBooking1`'s persisted one; and a userName-only
update with blank property id and end date, over a store whose
bookings overlap each other and lie in the past, succeeds changing
nothing but `userName`. -/
theorem update_field_frame_witness :
    ([{ exBooking1 with startDate := daysFromCivil 2025 8 9 }, exBooking2] =
      [exBooking1, exBooking2].map (fun x =>
        if x.id == "b1" then
          applyUpdateFields
            (trimUpdateDto { propertyId := none, userName := none, startDate := some "2025-08-09", endDate := none })
            (toDateIfTruthy (trimUpdateDto { propertyId := none, userName := none, startDate := some "2025-08-09", endDate := none }).startDate)
            (toDateIfTruthy (trimUpdateDto { propertyId := none, userName := none, startDate := some "2025-08-09", endDate := none }).endDate) x
        else x)) ∧
    (applyUpdateFields
        (trimUpdateDto { propertyId := none, userName := none, startDate := some "2025-08-09", endDate := none })
        (toDateIfTruthy (trimUpdateDto { propertyId := none, userName := none, startDate := some "2025-08-09", endDate := none }).startDate)
        (toDateIfTruthy (trimUpdateDto { propertyId := none, userName := none, startDate := some "2025-08-09", endDate := none }).endDate)
        exBooking1).endDate = exBooking1.endDate ∧
    update (daysFromCivil 2026 1 1)
        [exBooking1, { exBooking2 with startDate := daysFromCivil 2025 8 11 }] "b1"
        { propertyId := some "  ", userName := some " Cleo ",
          startDate := none, endDate := some " " } =
      Except.ok [{ exBooking1 with userName := "Cleo" },
        { exBooking2 with startDate := daysFromCivil 2025 8 11 }] := by
  refine ⟨?_, ?_, ?_⟩
  · exact (update_field_frame exNow [exBooking1, exBooking2] "b1"
      { propertyId := none, userName := none,
        startDate := some "2025-08-09", endDate := none }).1
      [{ exBooking1 with startDate := daysFromCivil 2025 8 9 }, exBooking2] (by decide)
  · exact ((update_field_frame exNow [exBooking1, exBooking2] "b1"
      { propertyId := none, userName := none,
        startDate := some "2025-08-09", endDate := none }).2.1 exBooking1).2.2.2
      (fun v hv => by cases hv)
  · exact ((update_field_frame (daysFromCivil 2026 1 1)
      [exBooking1, { exBooking2 with startDate := daysFromCivil 2025 8 11 }] "b1"
      { propertyId := some "  ", userName := some " Cleo ",
        startDate := none, endDate := some " " }).2.2
      exBooking1 (by decide) (fun v hv => by cases hv; decide)
      (fun v hv => by cases hv) (fun v hv => by cases hv; decide)).trans (by decide)

end BookingApi
